import Mathlib

/-!
Verification of the filter-to-query composition layer of the PhonePe
analytics dashboard (src/st2.py), together with its report catalogue.

The sidebar supplies three optional global filters (st2.py lines 21-23):
a free-text `state`, a `year` chosen from ["", 2018, ..., 2023] and a
`quarter` chosen from ["", 1, 2, 3, 4].  `add_filters` (lines 25-35)
appends a WHERE clause built from whichever filters are truthy.  The five
tabs (lines 38-247) hold thirteen `pd.read_sql` call sites, each handed a
static SQL string.
-/

/-- The sidebar's global filter values (st2.py lines 21-23).  The `year`
and `quarter` selectboxes yield either the empty string (modelled `none`)
or an integer (modelled `some n`); `state` is free text. -/
structure FilterSet where
  state : String
  year : Option Nat
  quarter : Option Nat
deriving DecidableEq, Repr

/-- Python truthiness of the `state` string: `if state:` holds iff the
string is non-empty (line 27). -/
def truthyState (s : String) : Bool := !s.isEmpty

/-- Python truthiness of a selectbox value: the empty string is falsy and
an integer is truthy iff non-zero (lines 29 and 31). -/
def truthyNum : Option Nat → Bool
  | none => false
  | some n => n != 0

/-- The text an integer selectbox value contributes to an f-string. -/
def numLit : Option Nat → String
  | none => ""
  | some n => toString n

/-- Line 28: `f"{alias}state = '{state}'"`. -/
def stateCond (F : FilterSet) (al : String) : String :=
  al ++ ("state = '" ++ F.state ++ "'")

/-- Line 30: `f"{alias}year = {year}"`. -/
def yearCond (F : FilterSet) (al : String) : String :=
  al ++ ("year = " ++ numLit F.year)

/-- Line 32: `f"{alias}quarter = {quarter}"`. -/
def quarterCond (F : FilterSet) (al : String) : String :=
  al ++ ("quarter = " ++ numLit F.quarter)

/-- The `conditions` list built by `add_filters` (lines 26-32): one
equality condition per truthy filter field, in the fixed order
state, year, quarter. -/
def conditions (F : FilterSet) (al : String) : List String :=
  (if truthyState F.state then [stateCond F al] else []) ++
    (if truthyNum F.year then [yearCond F al] else []) ++
      (if truthyNum F.quarter then [quarterCond F al] else [])

/-- Python's `" AND ".flatten` (line 34). -/
def joinAnd : List String → String
  | [] => ""
  | [c] => c
  | c :: cs => c ++ " AND " ++ joinAnd cs

/-- `add_filters(query, alias)` (lines 25-35): when at least one condition
was produced, append `" WHERE "` followed by the `" AND "`-join of the
conditions; otherwise return the query unchanged. -/
def add_filters (F : FilterSet) (query : String) (al : String) : String :=
  if (conditions F al).isEmpty then query
  else query ++ " WHERE " ++ joinAnd (conditions F al)

/-- Number of occurrences of `pat` as a contiguous substring (one count
per start position). -/
def occCount (pat : List Char) : List Char → Nat
  | [] => if pat.isPrefixOf [] then 1 else 0
  | c :: cs => (if pat.isPrefixOf (c :: cs) then 1 else 0) + occCount pat cs

/-- How many filter fields `F2` sets that `F1` does not. -/
def newlySet (F1 F2 : FilterSet) : Nat :=
  (if truthyState F2.state && !truthyState F1.state then 1 else 0) +
    (if truthyNum F2.year && !truthyNum F1.year then 1 else 0) +
      (if truthyNum F2.quarter && !truthyNum F1.quarter then 1 else 0)

/-- Line 43: `base_query`. -/
def base_query : String :=
  "SELECT state, SUM(transaction_amount) AS total_amount FROM aggregated_transaction GROUP BY state ORDER BY total_amount DESC LIMIT 10"

/-- Lines 54-64: `surge_query`. -/
def surge_query : String :=
  "
    SELECT state, year,
        SUM(CASE WHEN quarter = 1 THEN transaction_amount ELSE 0 END) AS Q1,
        SUM(CASE WHEN quarter = 4 THEN transaction_amount ELSE 0 END) AS Q4,
        (SUM(CASE WHEN quarter = 4 THEN transaction_amount ELSE 0 END) - SUM(CASE WHEN quarter = 1 THEN transaction_amount ELSE 0 END)) AS surge
    FROM aggregated_transaction
    GROUP BY state, year
    HAVING Q1 > 0 AND Q4 > 0
    ORDER BY surge DESC
    LIMIT 10;
    "

/-- Lines 71-82: `loyalty_query`. -/
def loyalty_query : String :=
  "
    SELECT state, brand, brand_count,
           ROUND((brand_count / total) * 100, 2) AS loyalty_pct
    FROM (
        SELECT state, brand, brand_count,
               SUM(brand_count) OVER (PARTITION BY state) AS total,
               ROW_NUMBER() OVER (PARTITION BY state ORDER BY brand_count DESC) AS rn
        FROM aggregated_user
    ) AS ranked
    WHERE rn = 1
    ORDER BY loyalty_pct DESC
    "

/-- Lines 93-101: `drop_query`. -/
def drop_query : String :=
  "
    SELECT state, SUM(registered_users) AS total_users, SUM(app_opens) AS total_opens,
           ROUND(SUM(app_opens)/NULLIF(SUM(registered_users), 0), 2) AS usage_ratio
    FROM aggregated_user
    GROUP BY state
    HAVING usage_ratio < 0.5
    ORDER BY usage_ratio ASC
    LIMIT 10
    "

/-- Lines 108-116: `insurance_eff_query`. -/
def insurance_eff_query : String :=
  "
    SELECT state, SUM(amount) AS total_insurance, SUM(app_opens) AS app_opens,
           ROUND(SUM(amount)/NULLIF(SUM(app_opens), 0), 2) AS efficiency
    FROM map_insurance
    JOIN map_user USING(state, year, quarter, district)
    GROUP BY state
    ORDER BY efficiency DESC
    LIMIT 10;
    "

/-- Lines 129-136: `pin_query`. -/
def pin_query : String :=
  "
    SELECT pincode, SUM(amount) AS total_value
    FROM top_map
    WHERE pincode IS NOT NULL
    GROUP BY pincode
    ORDER BY total_value DESC
    LIMIT 10;
    "

/-- Lines 150-156: `diversity_query`. -/
def diversity_query : String :=
  "
    SELECT state, COUNT(DISTINCT transaction_type) AS variety
    FROM aggregated_transaction
    GROUP BY state
    ORDER BY variety DESC
    LIMIT 10;
    "

/-- Lines 167-176: `high_insurance_query`. -/
def high_insurance_query : String :=
  "
    SELECT i.state, i.district, SUM(i.amount) AS insurance_amt, SUM(u.registered_users) AS users,
           ROUND(SUM(i.amount)/NULLIF(SUM(u.registered_users), 0), 2) AS premium_index
    FROM map_insurance i
    JOIN map_user u ON i.state = u.state AND i.district = u.district AND i.year = u.year AND i.quarter = u.quarter
    GROUP BY i.state, i.district
    HAVING users < 5000 AND insurance_amt > 100000
    ORDER BY premium_index DESC
    LIMIT 10;
    "

/-- Lines 183-188: `growth_query`. -/
def growth_query : String :=
  "
    SELECT district, year, quarter, SUM(amount) AS total_insurance
    FROM map_insurance
    GROUP BY district, year, quarter
    ORDER BY district, year, quarter
    "

/-- Lines 193-201: `concentration_query`. -/
def concentration_query : String :=
  "
    SELECT state, SUM(transaction_amount) AS total_amount,
           COUNT(DISTINCT transaction_type) AS type_count
    FROM aggregated_transaction
    GROUP BY state
    HAVING type_count <= 2
    ORDER BY total_amount DESC
    LIMIT 10;
    "

/-- Lines 206-213: `app_growth_query`. -/
def app_growth_query : String :=
  "
    SELECT district, year, quarter, SUM(app_opens) AS total_opens
    FROM map_user
    GROUP BY district, year, quarter
    HAVING total_opens > 50000
    ORDER BY total_opens DESC
    LIMIT 10;
    "

/-- Lines 218-227: `ins_tx_query`. -/
def ins_tx_query : String :=
  "
    SELECT i.state, SUM(i.amount) AS insurance_total, SUM(t.transaction_amount) AS txn_total,
           ROUND(SUM(i.amount)/NULLIF(SUM(t.transaction_amount), 0), 2) AS insurance_ratio
    FROM map_insurance i
    JOIN aggregated_transaction t ON i.state = t.state AND i.year = t.year AND i.quarter = t.quarter
    GROUP BY i.state
    HAVING insurance_ratio > 0.5
    ORDER BY insurance_ratio DESC
    LIMIT 10;
    "

/-- Lines 232-245: `active_query`. -/
def active_query : String :=
  "
    SELECT mu.district,
       SUM(mu.registered_users) AS users,
       SUM(mu.app_opens) AS opens,
       SUM(mm.count) AS txns,
       SUM(mi.count) AS insurances
    FROM map_user mu
    JOIN map_map mm ON mu.state = mm.state AND mu.district = mm.district AND mu.year = mm.year AND mu.quarter = mm.quarter
    JOIN map_insurance mi ON mu.state = mi.state AND mu.district = mi.district AND mu.year = mi.year AND mu.quarter = mi.quarter
    GROUP BY mu.district
    ORDER BY txns DESC, opens DESC
    LIMIT 10;

    "

/-- One report: the header shown above a query's rendered result and the
SQL string handed to `pd.read_sql`. -/
structure ReportSpec where
  name : String
  template : String
deriving DecidableEq, Repr

/-- The report catalogue: the five tabs (st2.py line 38) and, per tab, the
reports rendered inside the corresponding `with tabs[i]` block, in source
order. -/
def catalogue : List (String × List ReportSpec) :=
  [("📈 Transaction Insights",
    [⟨"📈 Top Performing States by Transaction Volume", base_query⟩,
     ⟨"📊 Seasonal Spike: Q4 vs Q1 by State", surge_query⟩]),
   ("👥 User Behavior",
    [⟨"👥 Device Brand Dominance (Brand Loyalty %)", loyalty_query⟩,
     ⟨"📉 States with Low App Usage (Drop-off Zones)", drop_query⟩]),
   ("🛡️ Insurance Analysis",
    [⟨"🛡️ Insurance Penetration Efficiency by State", insurance_eff_query⟩]),
   ("📌 Pin Code Impact",
    [⟨"📌 Top Pincodes by Transaction Value", pin_query⟩]),
   ("💡 Strategic Findings",
    [⟨"💡 Market Diversity & Premium Pockets", diversity_query⟩,
     ⟨"🔐 High Insurance with Low Users (Premium Pockets)", high_insurance_query⟩,
     ⟨"📊 Fastest Growing Insurance Districts Over Time", growth_query⟩,
     ⟨"📊 States with High Transactions but Low Diversity (Concentration Risk)", concentration_query⟩,
     ⟨"📈 Top Districts with Growing App Engagement (Rising Opens)", app_growth_query⟩,
     ⟨"📊 States with High Insurance but Low Transaction Volume", ins_tx_query⟩,
     ⟨"📌 Most Active Districts Across All Categories", active_query⟩])]

/-- The query strings handed to the executor (`pd.read_sql`) during one
render pass, in source order (st2.py lines 44, 65, 83, 102, 117, 137,
157, 177, 189, 202, 214, 228, 246).  Every call site passes its static
query string; none calls `add_filters`, so the argument list ignores the
sidebar's FilterSet. -/
def executedQueries (_F : FilterSet) : List String :=
  [base_query, surge_query, loyalty_query, drop_query, insurance_eff_query,
   pin_query, diversity_query, high_insurance_query, growth_query,
   concentration_query, app_growth_query, ins_tx_query, active_query]

/-- C3: composing any template with a FilterSet in which no field is set
(state unset, year unset, quarter unset) returns the template unchanged,
character for character, for every alias prefix. -/
theorem add_filters_identity (T a : String) (F : FilterSet)
    (hs : F.state = "") (hy : F.year = none) (hq : F.quarter = none) :
    add_filters F T a = T := by
  cases F
  dsimp only at hs hy hq
  subst hs; subst hy; subst hq
  rfl

/-- Witness for C3 at a concrete template, alias and the empty FilterSet. -/
theorem add_filters_identity_witness :
    add_filters ⟨"", none, none⟩
      "SELECT state, SUM(transaction_amount) AS total_amount FROM aggregated_transaction GROUP BY state" "t." =
      "SELECT state, SUM(transaction_amount) AS total_amount FROM aggregated_transaction GROUP BY state" :=
  add_filters_identity _ _ _ rfl rfl rfl

/-- C7: the composer is deterministic — its output depends only on the
template, the alias and the three filter fields, so two calls with the
same inputs yield the same string. -/
theorem add_filters_deterministic (T a : String) (F1 F2 : FilterSet)
    (hs : F1.state = F2.state) (hy : F1.year = F2.year) (hq : F1.quarter = F2.quarter) :
    add_filters F1 T a = add_filters F2 T a := by
  cases F1
  cases F2
  dsimp only at hs hy hq
  subst hs; subst hy; subst hq
  rfl

/-- Witness for C7 at concrete equal inputs. -/
theorem add_filters_deterministic_witness :
    add_filters ⟨"Karnataka", some 2021, none⟩ "SELECT 1" "" =
      add_filters ⟨"Karnataka", some 2021, none⟩ "SELECT 1" "" :=
  add_filters_deterministic "SELECT 1" "" _ _ rfl rfl rfl

/-- C9: an empty-string state value is treated as unset — with
`{state: "", year: unset, quarter: unset}` no condition at all is
produced and every template is returned unchanged. -/
theorem empty_state_unset (T a : String) :
    conditions ⟨"", none, none⟩ a = [] ∧ add_filters ⟨"", none, none⟩ T a = T :=
  ⟨rfl, rfl⟩

theorem isPref_self_append {α : Type} [BEq α] [LawfulBEq α] (p t : List α) :
    p.isPrefixOf (p ++ t) = true := by
  induction p with
  | nil => simp
  | cons a as ih => simp [List.isPrefixOf_cons₂, ih]

theorem occ_pos_of_isPref (pat s : List Char) (h : pat.isPrefixOf s = true) :
    0 < occCount pat s := by
  cases s <;> simp [occCount, h]

theorem occ_le_cons (pat : List Char) (x : Char) (l : List Char) :
    occCount pat l ≤ occCount pat (x :: l) := by
  cases h : pat.isPrefixOf (x :: l) <;> simp [occCount, h]

theorem occ_le_append (pat a l : List Char) :
    occCount pat l ≤ occCount pat (a ++ l) := by
  induction a with
  | nil => exact Nat.le_refl _
  | cons x xs ih => exact Nat.le_trans ih (occ_le_cons pat x (xs ++ l))

theorem occ_joinAnd_of_mem (c : String) (l : List String) (h : c ∈ l) :
    0 < occCount c.data (joinAnd l).data := by
  induction l with
  | nil => cases h
  | cons x xs ih =>
    cases xs with
    | nil =>
      have hx : c = x := by simpa using h
      subst hx
      have h1 := isPref_self_append c.data ([] : List Char)
      rw [List.append_nil] at h1
      exact occ_pos_of_isPref _ _ h1
    | cons y ys =>
      rcases List.mem_cons.mp h with rfl | hmem
      · apply occ_pos_of_isPref
        show c.data.isPrefixOf ((c ++ " AND " ++ joinAnd (y :: ys)).data) = true
        rw [String.data_append, String.data_append, List.append_assoc]
        exact isPref_self_append _ _
      · have h1 := ih hmem
        show 0 < occCount c.data ((x ++ " AND " ++ joinAnd (y :: ys)).data)
        rw [String.data_append]
        exact Nat.lt_of_lt_of_le h1 (occ_le_append _ _ _)

theorem occ_whereTok (l : List Char) :
    occCount (" WHERE ").data ((" WHERE ").data ++ l) =
      1 + occCount (" WHERE ").data (' ' :: l) := by
  show occCount (" WHERE ").data
      (' ' :: 'W' :: 'H' :: 'E' :: 'R' :: 'E' :: ' ' :: l) = _
  have h0 : (" WHERE ").data.isPrefixOf
      (' ' :: 'W' :: 'H' :: 'E' :: 'R' :: 'E' :: ' ' :: l) = true :=
    isPref_self_append (" WHERE ").data l
  simp [occCount, h0, List.isPrefixOf_cons₂]

/-- C6 (amended): with at least one condition produced, the composed
query is the template followed by `" WHERE "` followed by the conditions
joined with `" AND "` — a single append, so the template is a prefix of
the result; and provided `" WHERE "` does not already occur inside the
space-prefixed joined conditions, the appended text contains exactly one
occurrence of `" WHERE "`. -/
theorem add_filters_single_where (F : FilterSet) (T a : String)
    (hne : conditions F a ≠ []) :
    add_filters F T a = T ++ (" WHERE " ++ joinAnd (conditions F a)) ∧
    T.data.isPrefixOf (add_filters F T a).data = true ∧
    (occCount (" WHERE ").data (' ' :: (joinAnd (conditions F a)).data) = 0 →
      occCount (" WHERE ").data ((" WHERE " ++ joinAnd (conditions F a)).data) = 1) := by
  have hemp : (conditions F a).isEmpty = false := by
    cases h : conditions F a with
    | nil => exact absurd h hne
    | cons x xs => rfl
  have heq : add_filters F T a = T ++ " WHERE " ++ joinAnd (conditions F a) := by
    simp [add_filters, hemp]
  refine ⟨?_, ?_, ?_⟩
  · rw [heq, String.append_assoc]
  · rw [heq, String.data_append, String.data_append, List.append_assoc]
    exact isPref_self_append _ _
  · intro hocc
    rw [String.data_append, occ_whereTok, hocc]

/-- Witness for C6 (amended) at state `"Karnataka"`, template
`"SELECT 1"` and the empty alias. -/
theorem add_filters_single_where_witness :
    add_filters ⟨"Karnataka", none, none⟩ "SELECT 1" "" =
        "SELECT 1" ++ (" WHERE " ++ joinAnd (conditions ⟨"Karnataka", none, none⟩ "")) ∧
    ("SELECT 1" : String).data.isPrefixOf
        (add_filters ⟨"Karnataka", none, none⟩ "SELECT 1" "").data = true ∧
    occCount (" WHERE ").data
        ((" WHERE " ++ joinAnd (conditions ⟨"Karnataka", none, none⟩ "")).data) = 1 :=
  have h := add_filters_single_where ⟨"Karnataka", none, none⟩ "SELECT 1" "" (by decide)
  ⟨h.1, h.2.1, h.2.2 (by decide)⟩

/-- C6 counterexample: for the FilterSet whose state value is
`" WHERE "` (a set field, so at least one condition is produced), the
text appended to the template contains two occurrences of `" WHERE "`,
not exactly one. -/
theorem add_filters_where_count_cex :
    conditions ⟨" WHERE ", none, none⟩ "" ≠ [] ∧
    add_filters ⟨" WHERE ", none, none⟩ "SELECT 1" "" =
      "SELECT 1" ++ (" WHERE " ++ joinAnd (conditions ⟨" WHERE ", none, none⟩ "")) ∧
    occCount (" WHERE ").data
      ((" WHERE " ++ joinAnd (conditions ⟨" WHERE ", none, none⟩ "")).data) ≠ 1 := by
  refine ⟨by decide, by decide, by decide⟩

/-- C10: whichever subset of filter fields is set, the produced
conditions occur in the fixed order state, then year, then quarter. -/
theorem conditions_ordered (F : FilterSet) (a : String) :
    List.Sublist (conditions F a) [stateCond F a, yearCond F a, quarterCond F a] := by
  show List.Sublist
    ((if truthyState F.state then [stateCond F a] else []) ++
      (if truthyNum F.year then [yearCond F a] else []) ++
        (if truthyNum F.quarter then [quarterCond F a] else []))
    (([stateCond F a] ++ [yearCond F a]) ++ [quarterCond F a])
  refine List.Sublist.append (List.Sublist.append ?_ ?_) ?_
  · cases truthyState F.state <;> simp
  · cases truthyNum F.year <;> simp
  · cases truthyNum F.quarter <;> simp

theorem append_ne_of_head_ne (a x y : String) (c d : Char)
    (hx : x.data.head? = some c) (hy : y.data.head? = some d) (hcd : c ≠ d) :
    a ++ x ≠ a ++ y := by
  intro h
  have h3 := congrArg String.data h
  rw [String.data_append, String.data_append] at h3
  have h4 := List.append_cancel_left h3
  rw [h4, hy] at hx
  exact hcd (Option.some.inj hx).symm

theorem sc_ne_yc (F : FilterSet) (a : String) : stateCond F a ≠ yearCond F a :=
  append_ne_of_head_ne a _ _ 's' 'y' rfl rfl (by decide)

theorem sc_ne_qc (F : FilterSet) (a : String) : stateCond F a ≠ quarterCond F a :=
  append_ne_of_head_ne a _ _ 's' 'q' rfl rfl (by decide)

theorem yc_ne_qc (F : FilterSet) (a : String) : yearCond F a ≠ quarterCond F a :=
  append_ne_of_head_ne a _ _ 'y' 'q' rfl rfl (by decide)

theorem conditions_nodup (F : FilterSet) (a : String) : (conditions F a).Nodup := by
  have h1 := sc_ne_yc F a
  have h2 := sc_ne_qc F a
  have h3 := yc_ne_qc F a
  simp only [conditions]
  cases truthyState F.state <;> cases truthyNum F.year <;> cases truthyNum F.quarter <;>
    simp_all

theorem mem_conditions_state (F : FilterSet) (a : String)
    (h : truthyState F.state = true) : stateCond F a ∈ conditions F a := by
  simp [conditions, h]

theorem mem_conditions_year (F : FilterSet) (a : String)
    (h : truthyNum F.year = true) : yearCond F a ∈ conditions F a := by
  simp [conditions, h]

theorem mem_conditions_quarter (F : FilterSet) (a : String)
    (h : truthyNum F.quarter = true) : quarterCond F a ∈ conditions F a := by
  simp [conditions, h]

theorem occ_cond_in_add_filters (F : FilterSet) (T a c : String)
    (hc : c ∈ conditions F a) : 0 < occCount c.data (add_filters F T a).data := by
  have hemp : (conditions F a).isEmpty = false := by
    cases h : conditions F a with
    | nil => rw [h] at hc; cases hc
    | cons x xs => rfl
  have heq : add_filters F T a = T ++ " WHERE " ++ joinAnd (conditions F a) := by
    simp [add_filters, hemp]
  rw [heq, String.data_append]
  exact Nat.lt_of_lt_of_le (occ_joinAnd_of_mem c _ hc) (occ_le_append _ _ _)

/-- C4: each set filter field produces exactly one equality condition of
the form `<alias><field> = <literal>` among the produced conditions, and
that condition occurs in the composed query; the literal of the
string-typed field `state` is enclosed in single quotes and the literals
of the numeric-typed fields `year` and `quarter` are unquoted. -/
theorem conditions_shape_and_quoting (F : FilterSet) (a T : String) :
    (truthyState F.state = true →
      (conditions F a).count (a ++ ("state = '" ++ F.state ++ "'")) = 1 ∧
      0 < occCount (a ++ ("state = '" ++ F.state ++ "'")).data (add_filters F T a).data) ∧
    (truthyNum F.year = true →
      (conditions F a).count (a ++ ("year = " ++ numLit F.year)) = 1 ∧
      0 < occCount (a ++ ("year = " ++ numLit F.year)).data (add_filters F T a).data) ∧
    (truthyNum F.quarter = true →
      (conditions F a).count (a ++ ("quarter = " ++ numLit F.quarter)) = 1 ∧
      0 < occCount (a ++ ("quarter = " ++ numLit F.quarter)).data (add_filters F T a).data) := by
  refine ⟨fun h => ⟨?_, ?_⟩, fun h => ⟨?_, ?_⟩, fun h => ⟨?_, ?_⟩⟩
  · exact List.count_eq_one_of_mem (conditions_nodup F a) (mem_conditions_state F a h)
  · exact occ_cond_in_add_filters F T a _ (mem_conditions_state F a h)
  · exact List.count_eq_one_of_mem (conditions_nodup F a) (mem_conditions_year F a h)
  · exact occ_cond_in_add_filters F T a _ (mem_conditions_year F a h)
  · exact List.count_eq_one_of_mem (conditions_nodup F a) (mem_conditions_quarter F a h)
  · exact occ_cond_in_add_filters F T a _ (mem_conditions_quarter F a h)

/-- Witness for C4 with all three fields set, alias `"t."`. -/
theorem conditions_shape_and_quoting_witness :
    (conditions ⟨"Karnataka", some 2021, some 4⟩ "t.").count
        ("t." ++ ("state = '" ++ "Karnataka" ++ "'")) = 1 ∧
    (conditions ⟨"Karnataka", some 2021, some 4⟩ "t.").count
        ("t." ++ ("year = " ++ numLit (some 2021))) = 1 ∧
    0 < occCount ("t." ++ ("quarter = " ++ numLit (some 4))).data
        (add_filters ⟨"Karnataka", some 2021, some 4⟩ "SELECT 1" "t.").data :=
  have h := conditions_shape_and_quoting ⟨"Karnataka", some 2021, some 4⟩ "t." "SELECT 1"
  ⟨(h.1 rfl).1, (h.2.1 rfl).1, (h.2.2 rfl).2⟩

theorem piece_mono (b1 b2 : Bool) (x y : String)
    (h : b1 = true → b2 = true ∧ y = x) :
    List.Sublist (if b1 then [x] else []) (if b2 then [y] else []) ∧
    (if b2 then ([y] : List String) else []).length =
      (if b1 then ([x] : List String) else []).length +
        (if b2 && !b1 then 1 else 0) := by
  cases b1 with
  | false => cases b2 <;> simp
  | true =>
    obtain ⟨hb2, hyx⟩ := h rfl
    subst hb2
    subst hyx
    simp

/-- C5: when `F2` sets a superset of the fields `F1` sets, with equal
values on the shared fields, the conditions of `F1` form a sublist of the
conditions of `F2`, `F2` produces exactly one extra condition per newly
set field, and every condition of `F1` occurs in the query composed from
`F2`. -/
theorem conditions_monotone (F1 F2 : FilterSet) (T a : String)
    (hs : truthyState F1.state = true → F2.state = F1.state)
    (hy : truthyNum F1.year = true → F2.year = F1.year)
    (hq : truthyNum F1.quarter = true → F2.quarter = F1.quarter) :
    List.Sublist (conditions F1 a) (conditions F2 a) ∧
    (conditions F2 a).length = (conditions F1 a).length + newlySet F1 F2 ∧
    ∀ c ∈ conditions F1 a, 0 < occCount c.data (add_filters F2 T a).data := by
  have ps : truthyState F1.state = true →
      truthyState F2.state = true ∧ stateCond F2 a = stateCond F1 a := by
    intro h
    have h2 := hs h
    exact ⟨by rw [h2]; exact h, by simp [stateCond, h2]⟩
  have py : truthyNum F1.year = true →
      truthyNum F2.year = true ∧ yearCond F2 a = yearCond F1 a := by
    intro h
    have h2 := hy h
    exact ⟨by rw [h2]; exact h, by simp [yearCond, h2]⟩
  have pq : truthyNum F1.quarter = true →
      truthyNum F2.quarter = true ∧ quarterCond F2 a = quarterCond F1 a := by
    intro h
    have h2 := hq h
    exact ⟨by rw [h2]; exact h, by simp [quarterCond, h2]⟩
  obtain ⟨s1, s2⟩ := piece_mono _ _ (stateCond F1 a) (stateCond F2 a) ps
  obtain ⟨y1, y2⟩ := piece_mono _ _ (yearCond F1 a) (yearCond F2 a) py
  obtain ⟨q1, q2⟩ := piece_mono _ _ (quarterCond F1 a) (quarterCond F2 a) pq
  have hsub : List.Sublist (conditions F1 a) (conditions F2 a) :=
    List.Sublist.append (List.Sublist.append s1 y1) q1
  refine ⟨hsub, ?_, ?_⟩
  · simp only [conditions, newlySet, List.length_append]
    rw [s2, y2, q2]
    omega
  · intro c hc
    exact occ_cond_in_add_filters F2 T a c (hsub.subset hc)

/-- Witness for C5: `F1` sets only state, `F2` additionally sets year. -/
theorem conditions_monotone_witness :
    List.Sublist (conditions ⟨"Karnataka", none, none⟩ "")
        (conditions ⟨"Karnataka", some 2021, none⟩ "") ∧
    (conditions ⟨"Karnataka", some 2021, none⟩ "").length =
        (conditions ⟨"Karnataka", none, none⟩ "").length +
          newlySet ⟨"Karnataka", none, none⟩ ⟨"Karnataka", some 2021, none⟩ ∧
    ∀ c ∈ conditions ⟨"Karnataka", none, none⟩ "",
      0 < occCount c.data
        (add_filters ⟨"Karnataka", some 2021, none⟩ "SELECT 1" "").data :=
  conditions_monotone ⟨"Karnataka", none, none⟩ ⟨"Karnataka", some 2021, none⟩
    "SELECT 1" "" (fun _ => rfl) (fun h => nomatch h) (fun h => nomatch h)

set_option maxRecDepth 20000 in
/-- C1 (code-bug evidence): with the FilterSet `{state: "Karnataka"}` the
composer would produce the condition `state = 'Karnataka'` and composing
would change each template, yet the query strings handed to the executor
are identical for every FilterSet and none of the thirteen contains that
condition — no `pd.read_sql` call site applies `add_filters`. -/
theorem executed_queries_ignore_filterset :
    conditions ⟨"Karnataka", none, none⟩ "" = ["state = 'Karnataka'"] ∧
    add_filters ⟨"Karnataka", none, none⟩ base_query "" ≠ base_query ∧
    (∀ F1 F2 : FilterSet, executedQueries F1 = executedQueries F2) ∧
    (executedQueries ⟨"Karnataka", none, none⟩).all
      (fun q => occCount ("state = 'Karnataka'").data q.data == 0) = true := by
  refine ⟨by decide, by decide, fun F1 F2 => rfl, by decide⟩

/-- C2 (code-bug evidence): on the spec's example scenario (state
`"Karnataka"`, year 2021, quarter unset, empty alias), `add_filters`
appends the WHERE clause after the template's trailing GROUP BY, so the
composed query ends in `GROUP BY state WHERE state = 'Karnataka' AND
year = 2021` and differs from the spec's expected string in which the
WHERE conditions come before GROUP BY. -/
theorem add_filters_appends_after_group_by :
    add_filters ⟨"Karnataka", some 2021, none⟩
        "SELECT state, SUM(transaction_amount) AS total_amount FROM aggregated_transaction GROUP BY state" "" =
      "SELECT state, SUM(transaction_amount) AS total_amount FROM aggregated_transaction GROUP BY state WHERE state = 'Karnataka' AND year = 2021" ∧
    add_filters ⟨"Karnataka", some 2021, none⟩
        "SELECT state, SUM(transaction_amount) AS total_amount FROM aggregated_transaction GROUP BY state" "" ≠
      "SELECT state, SUM(transaction_amount) AS total_amount FROM aggregated_transaction WHERE state = 'Karnataka' AND year = 2021 GROUP BY state" := by
  refine ⟨by decide, by decide⟩

/-- C8 counterexample: the report catalogue holds 13 analytical queries,
so its size is not 15. -/
theorem catalogue_not_fifteen :
    ¬ (catalogue.map (fun c => c.2)).flatten.length = 15 := by
  decide

/-- C8 (amended): the report catalogue is a fixed, ordered set of exactly
13 named analytical queries grouped into 5 thematic categories (the five
tabs), and the queries handed to the executor during a render pass are
exactly the catalogue's templates in order. -/
theorem catalogue_thirteen_reports :
    catalogue.length = 5 ∧
    (catalogue.map (fun c => c.2)).flatten.length = 13 ∧
    ((catalogue.map (fun c => c.2)).flatten.map ReportSpec.template =
      executedQueries ⟨"", none, none⟩) :=
  ⟨rfl, rfl, rfl⟩
